import Mathlib

/-!
Verification of the deepbug moderation / security policy layer.

Shallow embedding of `src/utils/security.ts` (rate limiter, access tokens,
session manager) and `src/services/chat.ts` (moderation policy) into Lean.
JavaScript machine time (`Date.now()`) is modelled as an explicit `now : Nat`
argument (milliseconds).  The process-wide `loginAttempts` map is modelled as
an explicit state `String → Option RLRecord` threaded through the calls.
-/

namespace DeepBug

/-- `SECURITY_CONFIG.MAX_LOGIN_ATTEMPTS` from `security.ts`. -/
def MAX_LOGIN_ATTEMPTS : Nat := 5

/-- `SECURITY_CONFIG.LOCKOUT_DURATION` (15 minutes in ms) from `security.ts`. -/
def LOCKOUT_DURATION : Nat := 15 * 60 * 1000

/-- `SECURITY_CONFIG.SESSION_TIMEOUT` (24 hours in ms) from `security.ts`. -/
def SESSION_TIMEOUT : Nat := 24 * 60 * 60 * 1000

/-- An entry of the `loginAttempts` map:
`{ count: number; lastAttempt: number; lockedUntil?: number }`. -/
structure RLRecord where
  count : Nat
  lastAttempt : Nat
  lockedUntil : Option Nat := none
deriving Repr, DecidableEq

/-- The `loginAttempts` map (JS `Map<string, ...>`), as a function. -/
def RLState : Type := String → Option RLRecord

/-- `Map.set` / `Map.delete` on the rate-limit map. -/
def rlUpdate (m : RLState) (id : String) (v : Option RLRecord) : RLState :=
  fun x => if x = id then v else m x

/-- The empty `loginAttempts` map (initial process state). -/
def emptyRL : RLState := fun _ => none

/-- Result object of `checkRateLimit`:
`{ allowed: boolean; remainingTime?: number }`. -/
structure RLResult where
  allowed : Bool
  remainingTime : Option Nat := none
deriving Repr, DecidableEq

/-- `Math.ceil(n / k)` for nonnegative integers, as used on ms→s conversion. -/
def ceilDiv (n k : Nat) : Nat := (n + k - 1) / k

/-- `SecurityUtils.checkRateLimit(identifier)` from `security.ts` lines 61-104.
The JS truthiness test `attempts.lockedUntil && ...` is modelled faithfully:
a present `lockedUntil` equal to `0` is falsy in JS, so both lockout branches
additionally require `l ≠ 0`. -/
def checkRateLimit (now : Nat) (identifier : String) (m : RLState) :
    RLResult × RLState :=
  match m identifier with
  | none =>
      (⟨true, none⟩, rlUpdate m identifier (some ⟨1, now, none⟩))
  | some attempts =>
      match attempts.lockedUntil with
      | some l =>
          if l ≠ 0 ∧ now < l then
            (⟨false, some (ceilDiv (l - now) 1000)⟩, m)
          else if l ≠ 0 ∧ l ≤ now then
            (⟨true, none⟩, rlUpdate m identifier (some ⟨1, now, none⟩))
          else if MAX_LOGIN_ATTEMPTS ≤ attempts.count then
            (⟨false, some (ceilDiv LOCKOUT_DURATION 1000)⟩,
              rlUpdate m identifier
                (some ⟨attempts.count, attempts.lastAttempt,
                      some (now + LOCKOUT_DURATION)⟩))
          else
            (⟨true, none⟩,
              rlUpdate m identifier (some ⟨attempts.count + 1, now, none⟩))
      | none =>
          if MAX_LOGIN_ATTEMPTS ≤ attempts.count then
            (⟨false, some (ceilDiv LOCKOUT_DURATION 1000)⟩,
              rlUpdate m identifier
                (some ⟨attempts.count, attempts.lastAttempt,
                      some (now + LOCKOUT_DURATION)⟩))
          else
            (⟨true, none⟩,
              rlUpdate m identifier (some ⟨attempts.count + 1, now, none⟩))

/-- `SecurityUtils.resetRateLimit(identifier)`: `loginAttempts.delete(...)`. -/
def resetRateLimit (identifier : String) (m : RLState) : RLState :=
  rlUpdate m identifier none

/-- States of the `loginAttempts` map reachable from process start by any
sequence of `checkRateLimit` and `resetRateLimit` calls. -/
inductive RLReachable : RLState → Prop where
  | init : RLReachable emptyRL
  | check (now : Nat) (id : String) {m : RLState} :
      RLReachable m → RLReachable (checkRateLimit now id m).2
  | reset (id : String) {m : RLState} :
      RLReachable m → RLReachable (resetRateLimit id m)

theorem rlUpdate_self (m : RLState) (id : String) (v : Option RLRecord) :
    rlUpdate m id v id = v := by
  simp [rlUpdate]

theorem rlUpdate_other (m : RLState) (id x : String) (v : Option RLRecord)
    (h : x ≠ id) : rlUpdate m id v x = m x := by
  simp [rlUpdate, h]

/-- Claim C2: starting from no rate-limit record for the identifier, five
consecutive `checkRateLimit` calls (at arbitrary times, no intervening
`resetRateLimit`) leave count = 5, and the sixth call returns not-allowed
with `remainingTime` = 900 seconds and sets
`lockedUntil = now + LOCKOUT_DURATION` on the record. -/
theorem C2_lockout_after_max_attempts
    (m : RLState) (id : String) (t1 t2 t3 t4 t5 t6 : Nat)
    (h : m id = none) :
    let m1 := (checkRateLimit t1 id m).2
    let m2 := (checkRateLimit t2 id m1).2
    let m3 := (checkRateLimit t3 id m2).2
    let m4 := (checkRateLimit t4 id m3).2
    let m5 := (checkRateLimit t5 id m4).2
    (checkRateLimit t6 id m5).1 = ⟨false, some 900⟩ ∧
    ((checkRateLimit t6 id m5).2) id =
      some ⟨5, t5, some (t6 + LOCKOUT_DURATION)⟩ := by
  simp [checkRateLimit, h, rlUpdate_self, MAX_LOGIN_ATTEMPTS,
    LOCKOUT_DURATION, ceilDiv]

/-- Witness for C2 at a concrete identifier, times and the empty map. -/
theorem C2_lockout_after_max_attempts_witness :
    (checkRateLimit 5 "e"
      (checkRateLimit 4 "e"
        (checkRateLimit 3 "e"
          (checkRateLimit 2 "e"
            (checkRateLimit 1 "e"
              (checkRateLimit 0 "e" emptyRL).2).2).2).2).2).1.allowed
        = false := by
  have h := C2_lockout_after_max_attempts emptyRL "e" 0 1 2 3 4 5 rfl
  simp only at h
  rw [h.1]

/-- Claim C8: `resetRateLimit` followed by `checkRateLimit` on the same
identifier behaves exactly like a first-ever call on a fresh identifier:
it returns allowed and the record holds count = 1 (with `lastAttempt = now`
and no lockout), matching the result and record produced on the empty map. -/
theorem C8_reset_then_check_is_fresh (m : RLState) (id : String) (now : Nat) :
    (checkRateLimit now id (resetRateLimit id m)).1 = ⟨true, none⟩ ∧
    ((checkRateLimit now id (resetRateLimit id m)).2) id =
      some ⟨1, now, none⟩ ∧
    (checkRateLimit now id (resetRateLimit id m)).1 =
      (checkRateLimit now id emptyRL).1 ∧
    ((checkRateLimit now id (resetRateLimit id m)).2) id =
      ((checkRateLimit now id emptyRL).2) id := by
  simp [checkRateLimit, resetRateLimit, rlUpdate, emptyRL]

/-- Claim C9: during an active lockout (`lockedUntil` strictly in the
future), `checkRateLimit` returns not-allowed with
`remainingTime = ceil((lockedUntil − now)/1000)` and leaves the whole map —
in particular the record's count, lastAttempt and lockedUntil — unchanged,
so repeated calls never extend the lockout deadline. -/
theorem C9_locked_out_check_is_pure
    (m : RLState) (id : String) (now : Nat) (r : RLRecord) (l : Nat)
    (hr : m id = some r) (hl : r.lockedUntil = some l) (hfut : now < l) :
    checkRateLimit now id m = (⟨false, some (ceilDiv (l - now) 1000)⟩, m) := by
  have hne : l ≠ 0 := by omega
  simp [checkRateLimit, hr, hl, hne, hfut]

/-- Witness for C9 at a concrete locked-out record. -/
theorem C9_locked_out_check_is_pure_witness :
    checkRateLimit 1000 "e"
        (rlUpdate emptyRL "e" (some ⟨5, 0, some 901000⟩)) =
      (⟨false, some 900⟩,
        rlUpdate emptyRL "e" (some ⟨5, 0, some 901000⟩)) := by
  have h := C9_locked_out_check_is_pure
    (rlUpdate emptyRL "e" (some ⟨5, 0, some 901000⟩)) "e" 1000
    ⟨5, 0, some 901000⟩ 901000 (by simp [rlUpdate]) rfl (by omega)
  simpa [ceilDiv] using h

/-! ## Chat moderation policy (`src/services/chat.ts`)

The Firestore collections `chat`, `chatSessions` and `bannedUsers` are
modelled as lists (in document order); document ids are the `String`
components of the pairs.  `serverTimestamp()` is modelled as the call time
`now`.  `DOMPurify.sanitize` is an external library and is threaded through
as an arbitrary function `sanitizeHTML : String → String`. -/

/-- `SECURITY_CONFIG.MAX_MESSAGE_LENGTH` from `security.ts`. -/
def MAX_MESSAGE_LENGTH : Nat := 1000

/-- `SecurityUtils.validateMessage(message)`:
`if (!message || message.length > MAX_MESSAGE_LENGTH) return false`. -/
def validateMessage (message : String) : Bool :=
  if message = "" ∨ message.length > MAX_MESSAGE_LENGTH then false else true

/-- A document of the `chat` collection (`ChatMessage` minus `id`). -/
structure ChatMessageDoc where
  userId : String
  userName : String
  userAvatar : Option String
  message : String
  timestamp : Nat
  isDeleted : Bool
  deletedBy : Option String := none
  type : String
  isAdmin : Bool
deriving Repr, DecidableEq

/-- A document of the `chatSessions` collection (`ChatSession` minus `id`). -/
structure ChatSessionDoc where
  isOpen : Bool
  openedBy : Option String := none
  closedBy : Option String := none
  openedAt : Option Nat := none
  closedAt : Option Nat := none
  participants : List String
  messageCount : Nat
deriving Repr, DecidableEq

/-- A document of the `bannedUsers` collection (`BannedUser` minus `id`). -/
structure BanDoc where
  userId : String
  bannedBy : String
  reason : String
  bannedAt : Nat
  expiresAt : Option Nat := none
  isActive : Bool
deriving Repr, DecidableEq

/-- The three Firestore collections touched by `ChatService`. -/
structure ChatState where
  messages : List ChatMessageDoc
  sessions : List (String × ChatSessionDoc)
  bans : List (String × BanDoc)
deriving Repr, DecidableEq

/-- A `{ success, message }` result pair. -/
structure OpResult where
  success : Bool
  message : String
deriving Repr, DecidableEq

/-- `ChatService.isChatOpen()`: a `chatSessions` document with
`isOpen == true` exists. -/
def isChatOpen (s : ChatState) : Bool :=
  s.sessions.any (fun p => p.2.isOpen)

/-- The `bannedUsers` query
`where('userId','==',userId), where('isActive','==',true)` in document
order. -/
def activeBansFor (userId : String) (bans : List (String × BanDoc)) :
    List (String × BanDoc) :=
  bans.filter (fun p => p.2.userId == userId && p.2.isActive)

/-- `updateDoc(doc(db,'bannedUsers',id), { isActive: false })` (document ids
are unique, so updating every pair with this id is the single-doc update). -/
def setBanInactive (bans : List (String × BanDoc)) (i : String) :
    List (String × BanDoc) :=
  bans.map (fun p => if p.1 = i then (p.1, { p.2 with isActive := false }) else p)

/-- `ChatService.isUserBanned(userId)` from `chat.ts` lines 254-284:
takes the first active ban; an expired one is lazily flipped inactive. -/
def isUserBanned (now : Nat) (userId : String) (s : ChatState) :
    Bool × ChatState :=
  match (activeBansFor userId s.bans).head? with
  | none => (false, s)
  | some (i, b) =>
      match b.expiresAt with
      | some e =>
          if e < now then
            (false, { s with bans := setBanInactive s.bans i })
          else (true, s)
      | none => (true, s)

/-- `ChatService.updateSessionParticipants(userId)`: idempotent participant
add on the open session plus `messageCount` increment. -/
def updateSessionParticipants (userId : String) (s : ChatState) : ChatState :=
  match (s.sessions.filter (fun p => p.2.isOpen)).head? with
  | none => s
  | some (i, sess) =>
      let sess' :=
        if sess.participants.contains userId then
          { sess with messageCount := sess.messageCount + 1 }
        else
          { sess with participants := sess.participants ++ [userId],
                      messageCount := sess.messageCount + 1 }
      { s with sessions :=
          s.sessions.map (fun p => if p.1 = i then (p.1, sess') else p) }

/-- `ChatService.sendMessage(...)` from `chat.ts` lines 130-175. -/
def sendMessage (sanitizeHTML : String → String) (now : Nat)
    (userId userName message : String) (userAvatar : Option String)
    (isAdmin : Bool) (s : ChatState) : OpResult × ChatState :=
  if validateMessage message = false then
    (⟨false, "الرسالة غير صالحة أو طويلة جداً."⟩, s)
  else
    match isUserBanned now userId s with
    | (true, s1) => (⟨false, "تم حظرك من الدردشة."⟩, s1)
    | (false, s1) =>
        if isChatOpen s1 = false then
          (⟨false, "الدردشة مغلقة حالياً."⟩, s1)
        else
          let msgDoc : ChatMessageDoc :=
            { userId := userId, userName := sanitizeHTML userName,
              userAvatar := userAvatar, message := sanitizeHTML message,
              timestamp := now, isDeleted := false, deletedBy := none,
              type := "text", isAdmin := isAdmin }
          let s2 := { s1 with messages := s1.messages ++ [msgDoc] }
          (⟨true, "تم إرسال الرسالة بنجاح."⟩, updateSessionParticipants userId s2)

/-- `ChatService.banUser(userId, adminId, reason, duration?)` from `chat.ts`
lines 200-225.  The JS truthiness test `duration ? ... : undefined` makes a
present duration of `0` behave like an absent one. -/
def banUser (sanitizeHTML : String → String) (now : Nat)
    (userId adminId reason : String) (duration : Option Nat)
    (newId : String) (s : ChatState) : OpResult × ChatState :=
  match isUserBanned now userId s with
  | (true, s1) => (⟨false, "المستخدم محظور بالفعل."⟩, s1)
  | (false, s1) =>
      let banDoc : BanDoc :=
        { userId := userId, bannedBy := adminId,
          reason := sanitizeHTML reason, bannedAt := now,
          expiresAt :=
            match duration with
            | some d => if d ≠ 0 then some (now + d) else none
            | none => none,
          isActive := true }
      (⟨true, "تم حظر المستخدم بنجاح."⟩,
        { s1 with bans := s1.bans ++ [(newId, banDoc)] })

/-- `isUserBanned` only touches the `bannedUsers` collection. -/
theorem isUserBanned_preserves (now : Nat) (uid : String) (s : ChatState) :
    ((isUserBanned now uid s).2).messages = s.messages ∧
    ((isUserBanned now uid s).2).sessions = s.sessions := by
  cases hab : (activeBansFor uid s.bans).head? with
  | none => simp [isUserBanned, hab]
  | some p =>
    obtain ⟨i, b⟩ := p
    cases hexp : b.expiresAt with
    | none => simp [isUserBanned, hab, hexp]
    | some e =>
      by_cases he : e < now <;> simp [isUserBanned, hab, hexp, he]

/-- When `isUserBanned` reports banned it performs no write at all. -/
theorem isUserBanned_true_state (now : Nat) (uid : String) (s : ChatState)
    (h : (isUserBanned now uid s).1 = true) :
    isUserBanned now uid s = (true, s) := by
  cases hab : (activeBansFor uid s.bans).head? with
  | none => simp [isUserBanned, hab] at h
  | some p =>
    obtain ⟨i, b⟩ := p
    cases hexp : b.expiresAt with
    | none => simp [isUserBanned, hab, hexp]
    | some e =>
      by_cases he : e < now
      · simp [isUserBanned, hab, hexp, he] at h
      · simp [isUserBanned, hab, hexp, he]

/-- `isChatOpen` only reads sessions. -/
theorem isChatOpen_congr {s s' : ChatState} (h : s'.sessions = s.sessions) :
    isChatOpen s' = isChatOpen s := by
  unfold isChatOpen
  rw [h]

/-- Claim C1: `sendMessage` runs its guards in the order
`validateMessage`, `isUserBanned`, `isChatOpen`; each failure
short-circuits with the corresponding localized message, creates no `chat`
document and modifies no `chatSessions` document.  (An invalid message even
leaves the whole state untouched; a banned user likewise; a closed chat
leaves messages and sessions untouched, only the lazy ban-expiry write on
`bannedUsers` may have happened.) -/
theorem C1_send_message_guard_chain
    (sanitizeHTML : String → String) (now : Nat)
    (userId userName message : String) (userAvatar : Option String)
    (isAdmin : Bool) (s : ChatState) :
    (validateMessage message = false →
      sendMessage sanitizeHTML now userId userName message userAvatar isAdmin s
        = (⟨false, "الرسالة غير صالحة أو طويلة جداً."⟩, s)) ∧
    (validateMessage message = true →
      (isUserBanned now userId s).1 = true →
      sendMessage sanitizeHTML now userId userName message userAvatar isAdmin s
        = (⟨false, "تم حظرك من الدردشة."⟩, s)) ∧
    (validateMessage message = true →
      (isUserBanned now userId s).1 = false →
      isChatOpen s = false →
      sendMessage sanitizeHTML now userId userName message userAvatar isAdmin s
        = (⟨false, "الدردشة مغلقة حالياً."⟩, (isUserBanned now userId s).2) ∧
      ((isUserBanned now userId s).2).messages = s.messages ∧
      ((isUserBanned now userId s).2).sessions = s.sessions) := by
  refine ⟨fun hv => ?_, fun hv hb => ?_, fun hv hb hc => ?_⟩
  · simp [sendMessage, hv]
  · have hst := isUserBanned_true_state now userId s hb
    simp [sendMessage, hv, hst]
  · have hpres := isUserBanned_preserves now userId s
    have hopen : isChatOpen (isUserBanned now userId s).2 = false := by
      rw [isChatOpen_congr hpres.2]; exact hc
    cases hib : isUserBanned now userId s with
    | mk b s1 =>
      rw [hib] at hb hopen hpres
      subst hb
      refine ⟨?_, hpres⟩
      simp [sendMessage, hv, hib, hopen]

/-- Witness state for the C1 banned branch: one active permanent ban. -/
def s_banned : ChatState :=
  ⟨[], [], [("b1", ⟨"u", "a", "spam", 0, none, true⟩)]⟩

/-- Witness state for the C1 closed branch: no open session, no bans. -/
def s_closed : ChatState := ⟨[], [⟨"s1", ⟨false, none, none, none, none, [], 0⟩⟩], []⟩

/-- Witness for C1: each of the three guard branches at a concrete input. -/
theorem C1_send_message_guard_chain_witness :
    (sendMessage (fun x => x) 0 "u" "n" "" none false ⟨[], [], []⟩
      = (⟨false, "الرسالة غير صالحة أو طويلة جداً."⟩, ⟨[], [], []⟩)) ∧
    (sendMessage (fun x => x) 0 "u" "n" "hi" none false s_banned
      = (⟨false, "تم حظرك من الدردشة."⟩, s_banned)) ∧
    (sendMessage (fun x => x) 0 "u" "n" "hi" none false s_closed
      = (⟨false, "الدردشة مغلقة حالياً."⟩, s_closed)) := by
  refine ⟨?_, ?_, ?_⟩
  · exact (C1_send_message_guard_chain (fun x => x) 0 "u" "n" "" none false
      ⟨[], [], []⟩).1 (by decide)
  · exact (C1_send_message_guard_chain (fun x => x) 0 "u" "n" "hi" none false
      s_banned).2.1 (by decide) (by decide)
  · have h := (C1_send_message_guard_chain (fun x => x) 0 "u" "n" "hi" none false
      s_closed).2.2 (by decide) (by decide) (by decide)
    have h2 : (isUserBanned 0 "u" s_closed).2 = s_closed := by decide
    rw [h2] at h
    exact h.1

/-- Claim C4: `isUserBanned` is self-healing.  If the found active ban
(the first document of the active-ban query) has an `expiresAt` in the
past, `isUserBanned` returns false without any `unbanUser` call and flips
that record's `isActive` to false; if it has no `expiresAt` or one not in
the past, `isUserBanned` returns true and changes nothing. -/
theorem C4_is_user_banned_lazy_expiry
    (now : Nat) (uid : String) (s : ChatState)
    (i : String) (b : BanDoc) (rest : List (String × BanDoc))
    (hhead : activeBansFor uid s.bans = (i, b) :: rest) :
    ((∃ e, b.expiresAt = some e ∧ e < now) →
      isUserBanned now uid s =
        (false, { s with bans := setBanInactive s.bans i }) ∧
      ∀ p ∈ (isUserBanned now uid s).2.bans, p.1 = i →
        p.2.isActive = false) ∧
    ((b.expiresAt = none ∨ ∃ e, b.expiresAt = some e ∧ now ≤ e) →
      isUserBanned now uid s = (true, s)) := by
  have hh : (activeBansFor uid s.bans).head? = some (i, b) := by
    rw [hhead]; rfl
  constructor
  · rintro ⟨e, hexp, hlt⟩
    have heq : isUserBanned now uid s =
        (false, { s with bans := setBanInactive s.bans i }) := by
      simp [isUserBanned, hh, hexp, hlt]
    refine ⟨heq, ?_⟩
    rw [heq]
    intro p hp hpi
    simp only [setBanInactive, List.mem_map] at hp
    obtain ⟨q, _, hq⟩ := hp
    by_cases hqi : q.1 = i
    · rw [← hq]; simp [hqi]
    · rw [← hq] at hpi; simp [hqi] at hpi
  · rintro (hexp | ⟨e, hexp, hge⟩)
    · simp [isUserBanned, hh, hexp]
    · simp [isUserBanned, hh, hexp, Nat.not_lt.mpr hge]

/-- Witness state for C4: one active ban expired at time 5. -/
def s_expired_ban : ChatState :=
  ⟨[], [], [("b1", ⟨"u", "a", "spam", 0, some 5, true⟩)]⟩

/-- Witness for C4 at time 10 (expired branch) and time 3 (active branch). -/
theorem C4_is_user_banned_lazy_expiry_witness :
    isUserBanned 10 "u" s_expired_ban =
      (false, { s_expired_ban with bans := setBanInactive s_expired_ban.bans "b1" }) ∧
    isUserBanned 3 "u" s_expired_ban = (true, s_expired_ban) := by
  constructor
  · exact ((C4_is_user_banned_lazy_expiry 10 "u" s_expired_ban "b1"
      ⟨"u", "a", "spam", 0, some 5, true⟩ [] (by decide)).1
      ⟨5, rfl, by omega⟩).1
  · exact (C4_is_user_banned_lazy_expiry 3 "u" s_expired_ban "b1"
      ⟨"u", "a", "spam", 0, some 5, true⟩ [] (by decide)).2
      (Or.inr ⟨5, rfl, by omega⟩)

/-- If every active ban for the user is expired (in particular if there is
none), `isUserBanned` reports not banned. -/
theorem isUserBanned_false_of_expired (now : Nat) (uid : String)
    (s : ChatState)
    (h : ∀ p ∈ s.bans, p.2.userId = uid → p.2.isActive = true →
        ∃ e, p.2.expiresAt = some e ∧ e < now) :
    (isUserBanned now uid s).1 = false := by
  cases hab : (activeBansFor uid s.bans).head? with
  | none => simp [isUserBanned, hab]
  | some p =>
    obtain ⟨i, b⟩ := p
    have hmem : (i, b) ∈ activeBansFor uid s.bans := by
      cases hl : activeBansFor uid s.bans with
      | nil => rw [hl] at hab; simp at hab
      | cons q t =>
        rw [hl] at hab
        simp only [List.head?_cons, Option.some.injEq] at hab
        rw [hab]
        exact List.mem_cons_self (i, b) t
    have hprop := List.of_mem_filter hmem
    simp only [Bool.and_eq_true, beq_iff_eq] at hprop
    have hin : (i, b) ∈ s.bans := List.mem_of_mem_filter hmem
    obtain ⟨e, hexp, hlt⟩ := h (i, b) hin hprop.1 hprop.2
    have hexp' : b.expiresAt = some e := hexp
    simp [isUserBanned, hab, hexp', hlt]

/-- Counterexample to claim C7 as stated: `banUser` with the duration
argument given as `0` creates a permanent ban record (`expiresAt` unset)
rather than one with `expiresAt = now + 0`, because the JS truthiness test
`duration ? new Date(Date.now() + duration) : undefined` treats `0` as
absent. -/
theorem C7_ban_user_counterexample :
    (banUser (fun x => x) 7 "u" "a" "r" (some 0) "b1" ⟨[], [], []⟩).2.bans =
      [("b1", ⟨"u", "a", "r", 7, none, true⟩)] ∧
    (⟨"u", "a", "r", 7, none, true⟩ : BanDoc).expiresAt ≠ some (7 + 0) := by
  constructor
  · rfl
  · simp

/-- Claim C7 (amended: a *nonzero* given duration yields
`expiresAt = now + duration`; an absent or zero duration yields a permanent
ban): if every active ban for the user is expired or there is none,
`banUser` succeeds and appends an `isActive = true` record with the stated
expiry; if the found active ban is permanent or unexpired, `banUser` fails
and the state is unchanged. -/
theorem C7_ban_user_amended
    (sanitizeHTML : String → String) (now : Nat)
    (uid adminId reason : String) (duration : Option Nat)
    (newId : String) (s : ChatState) :
    ((∀ p ∈ s.bans, p.2.userId = uid → p.2.isActive = true →
        ∃ e, p.2.expiresAt = some e ∧ e < now) →
      (banUser sanitizeHTML now uid adminId reason duration newId s).1.success
          = true ∧
      (banUser sanitizeHTML now uid adminId reason duration newId s).2.bans =
        (isUserBanned now uid s).2.bans ++
          [(newId,
            { userId := uid, bannedBy := adminId,
              reason := sanitizeHTML reason, bannedAt := now,
              expiresAt :=
                match duration with
                | some d => if d ≠ 0 then some (now + d) else none
                | none => none,
              isActive := true })]) ∧
    (∀ i b rest, activeBansFor uid s.bans = (i, b) :: rest →
      (b.expiresAt = none ∨ ∃ e, b.expiresAt = some e ∧ now ≤ e) →
      banUser sanitizeHTML now uid adminId reason duration newId s =
        (⟨false, "المستخدم محظور بالفعل."⟩, s)) := by
  constructor
  · intro hexp
    have hfalse := isUserBanned_false_of_expired now uid s hexp
    cases hib : isUserBanned now uid s with
    | mk bflag s1 =>
      rw [hib] at hfalse
      subst hfalse
      simp [banUser, hib]
  · intro i b rest hhead hub
    have htrue := (C4_is_user_banned_lazy_expiry now uid s i b rest hhead).2 hub
    simp [banUser, htrue]

/-- Witness for C7 (amended): a ban with duration 5 on an empty store, and
a rejected ban while a permanent active ban stands. -/
theorem C7_ban_user_amended_witness :
    (banUser (fun x => x) 3 "u" "a" "r" (some 5) "b1" ⟨[], [], []⟩).2.bans =
      [("b1", ⟨"u", "a", "r", 3, some 8, true⟩)] ∧
    banUser (fun x => x) 3 "u" "a" "r" (some 5) "b2" s_banned =
      (⟨false, "المستخدم محظور بالفعل."⟩, s_banned) := by
  constructor
  · have h := (C7_ban_user_amended (fun x => x) 3 "u" "a" "r" (some 5) "b1"
      ⟨[], [], []⟩).1 (by intro p hp; simp at hp)
    rw [h.2]
    decide
  · exact (C7_ban_user_amended (fun x => x) 3 "u" "a" "r" (some 5) "b2"
      s_banned).2 "b1" ⟨"u", "a", "spam", 0, none, true⟩ [] (by decide)
      (Or.inl rfl)

/-- `checkRateLimit` preserves the bound `count ≤ MAX_LOGIN_ATTEMPTS`. -/
theorem checkRateLimit_count_le
    (m : RLState) (now : Nat) (i : String)
    (hm : ∀ id r, m id = some r → r.count ≤ MAX_LOGIN_ATTEMPTS) :
    ∀ id r, ((checkRateLimit now i m).2) id = some r →
      r.count ≤ MAX_LOGIN_ATTEMPTS := by
  intro id r hr
  have key : ∀ (v : RLRecord), v.count ≤ MAX_LOGIN_ATTEMPTS →
      rlUpdate m i (some v) id = some r → r.count ≤ MAX_LOGIN_ATTEMPTS := by
    intro v hv hh
    simp only [rlUpdate] at hh
    split at hh
    · cases hh; exact hv
    · exact hm id r hh
  simp only [checkRateLimit] at hr
  split at hr
  · exact key _ (by simp [MAX_LOGIN_ATTEMPTS]) hr
  · rename_i a hmi
    have ha := hm i a hmi
    split at hr
    · split at hr
      · exact hm id r hr
      · split at hr
        · exact key _ (by simp [MAX_LOGIN_ATTEMPTS]) hr
        · split at hr
          · exact key ⟨a.count, a.lastAttempt,
              some (now + LOCKOUT_DURATION)⟩ ha hr
          · rename_i hcnt
            exact key ⟨a.count + 1, now, none⟩
              (by simp only [MAX_LOGIN_ATTEMPTS] at hcnt ⊢; omega) hr
    · split at hr
      · exact key ⟨a.count, a.lastAttempt,
          some (now + LOCKOUT_DURATION)⟩ ha hr
      · rename_i hcnt
        exact key ⟨a.count + 1, now, none⟩
          (by simp only [MAX_LOGIN_ATTEMPTS] at hcnt ⊢; omega) hr

/-- Whenever a `checkRateLimit` call changes a record's `lockedUntil` to a
present value, that value is `now + LOCKOUT_DURATION`, strictly after the
call time. -/
theorem checkRateLimit_sets_future_lockout
    (m : RLState) (i : String) (now : Nat) :
    ∀ id l,
      ((((checkRateLimit now i m).2) id).bind (fun r => r.lockedUntil))
          = some l →
      (((m id).bind (fun r => r.lockedUntil)) ≠ some l) →
      now < l := by
  intro id l hnew hold
  by_cases hid : id = i
  · subst hid
    simp only [checkRateLimit] at hnew
    split at hnew
    · simp [rlUpdate_self] at hnew
    · rename_i a hmi
      split at hnew
      · split at hnew
        · exact absurd hnew hold
        · split at hnew
          · simp [rlUpdate_self] at hnew
          · split at hnew
            · simp [rlUpdate_self, LOCKOUT_DURATION] at hnew
              omega
            · simp [rlUpdate_self] at hnew
      · split at hnew
        · simp [rlUpdate_self, LOCKOUT_DURATION] at hnew
          omega
        · simp [rlUpdate_self] at hnew
  · have hfr : ((checkRateLimit now i m).2) id = m id := by
      simp only [checkRateLimit]
      split
      · exact rlUpdate_other _ _ _ _ hid
      · split
        · split
          · rfl
          · split
            · exact rlUpdate_other _ _ _ _ hid
            · split
              · exact rlUpdate_other _ _ _ _ hid
              · exact rlUpdate_other _ _ _ _ hid
        · split
          · exact rlUpdate_other _ _ _ _ hid
          · exact rlUpdate_other _ _ _ _ hid
    rw [hfr] at hnew
    exact absurd hnew hold

/-- Claim C6: in every reachable state of the rate-limit table every record
has `count ≤ MAX_LOGIN_ATTEMPTS` (5), and whenever a `checkRateLimit` call
sets a record's `lockedUntil` to a new present value, that deadline is
strictly later than the call time. -/
theorem C6_rate_limit_invariants (m : RLState) (hm : RLReachable m) :
    (∀ id r, m id = some r → r.count ≤ MAX_LOGIN_ATTEMPTS) ∧
    (∀ i now id l,
      ((((checkRateLimit now i m).2) id).bind (fun r => r.lockedUntil))
          = some l →
      (((m id).bind (fun r => r.lockedUntil)) ≠ some l) →
      now < l) := by
  constructor
  · induction hm with
    | init => intro id r h; simp [emptyRL] at h
    | check now i h ih => exact checkRateLimit_count_le _ now i ih
    | reset i h ih =>
      intro id r hr
      simp only [resetRateLimit, rlUpdate] at hr
      split at hr
      · cases hr
      · exact ih id r hr
  · intro i now id l h1 h2
    exact checkRateLimit_sets_future_lockout m i now id l h1 h2

/-- A reachable one-record state used by the C6 witness. -/
def rlDemo1 : RLState := (checkRateLimit 0 "x" emptyRL).2

/-- Witness for C6: the record created by a first call in the reachable
state `rlDemo1` satisfies the count bound. -/
theorem C6_rate_limit_invariants_witness :
    (⟨1, 0, (none : Option Nat)⟩ : RLRecord).count ≤ MAX_LOGIN_ATTEMPTS := by
  refine (C6_rate_limit_invariants rlDemo1
    (RLReachable.check 0 "x" RLReachable.init)).1 "x" ⟨1, 0, none⟩ ?_
  simp [rlDemo1, checkRateLimit, emptyRL, rlUpdate]

/-! ## Access tokens (`security.ts` lines 136-157)

JS strings are modelled as lists of UTF-16 code units (`List Nat`); `':'` is
code 58.  `btoa`/`atob` form a bijection between the payload string and its
base64 text with `atob (btoa s) = s`, and `validateAccessToken` applies
`atob` to the token before anything else, so the token is modelled by its
decoded payload, the encoding bijection being elided. -/

/-- The decimal digit string of `n` as produced by JS number→string
conversion inside a template literal. -/
def natToDec (n : Nat) : List Nat :=
  if n < 10 then [48 + n]
  else natToDec (n / 10) ++ [48 + n % 10]
decreasing_by exact Nat.div_lt_self (by omega) (by omega)

/-- Code of a decimal digit. -/
def isDigitCode (c : Nat) : Bool := 48 ≤ c && c ≤ 57

/-- Numeric value of a digit string. -/
def decVal (s : List Nat) : Nat := s.foldl (fun a c => a * 10 + (c - 48)) 0

/-- JS `parseInt` restricted to what the token code feeds it: value of the
longest digit prefix, `NaN` (`none`) if there is none. -/
def jsParseInt (s : List Nat) : Option Nat :=
  let ds := s.takeWhile isDigitCode
  if ds = [] then none else some (decVal ds)

/-- JS `String.prototype.split` with a one-character separator. -/
def jsSplit (sep : Nat) : List Nat → List (List Nat)
  | [] => [[]]
  | c :: cs =>
      if c = sep then [] :: jsSplit sep cs
      else
        match jsSplit sep cs with
        | [] => [[c]]
        | h :: t => (c :: h) :: t

/-- `SecurityUtils.generateAccessToken(userId, resource)`:
the payload `` `${userId}:${resource}:${timestamp}` `` (base64 coat elided,
see the section comment). -/
def generateAccessToken (now : Nat) (userId resource : List Nat) : List Nat :=
  userId ++ 58 :: (resource ++ 58 :: natToDec now)

/-- `SecurityUtils.validateAccessToken(token, userId, resource)` from
`security.ts` lines 142-157: split on `':'`, destructure the first three
segments (a missing segment is `undefined` and can match no string, and
`parseInt(undefined)` is `NaN`, so fewer than three segments yield false),
compare, then check `Date.now() - parseInt(timestamp) < SESSION_TIMEOUT`
(a `NaN` age compares false). -/
def validateAccessToken (now : Nat) (token userId resource : List Nat) :
    Bool :=
  match jsSplit 58 token with
  | tu :: tr :: ts :: _ =>
      if tu = userId ∧ tr = resource then
        match jsParseInt ts with
        | some t => decide ((now : Int) - (t : Int) < (SESSION_TIMEOUT : Int))
        | none => false
      else false
  | _ => false

theorem natToDec_mem (n : Nat) : ∀ c ∈ natToDec n, 48 ≤ c ∧ c ≤ 57 := by
  induction n using Nat.strong_induction_on with
  | _ n ih =>
    intro c hc
    rw [natToDec] at hc
    split at hc
    · rename_i h
      simp only [List.mem_singleton] at hc
      omega
    · rename_i h
      rw [List.mem_append] at hc
      cases hc with
      | inl h1 => exact ih (n / 10) (Nat.div_lt_self (by omega) (by omega)) c h1
      | inr h2 =>
        simp only [List.mem_singleton] at h2
        have := Nat.mod_lt n (show 0 < 10 by omega)
        omega

theorem natToDec_ne_nil (n : Nat) : natToDec n ≠ [] := by
  rw [natToDec]
  split <;> simp

theorem decVal_natToDec_aux (n : Nat) :
    ∀ a, (natToDec n).foldl (fun x c => x * 10 + (c - 48)) a =
      a * 10 ^ (natToDec n).length + n := by
  induction n using Nat.strong_induction_on with
  | _ n ih =>
    intro a
    rw [natToDec]
    split
    · rename_i h
      simp only [List.foldl_cons, List.foldl_nil, List.length_singleton,
        pow_one]
      omega
    · rename_i h
      rw [List.foldl_append,
        ih (n / 10) (Nat.div_lt_self (by omega) (by omega)) a,
        List.length_append]
      simp only [List.foldl_cons, List.foldl_nil, List.length_singleton,
        pow_succ]
      have h48 : 48 + n % 10 - 48 = n % 10 := by omega
      rw [h48, Nat.add_mul, ← Nat.mul_assoc, Nat.add_assoc]
      rw [Nat.add_left_cancel_iff]
      omega

theorem decVal_natToDec (n : Nat) : decVal (natToDec n) = n := by
  have h := decVal_natToDec_aux n 0
  simpa [decVal] using h

theorem jsParseInt_natToDec (n : Nat) : jsParseInt (natToDec n) = some n := by
  have hall : ∀ c ∈ natToDec n, isDigitCode c = true := by
    intro c hc
    have := natToDec_mem n c hc
    simp only [isDigitCode, Bool.and_eq_true, decide_eq_true_eq]
    omega
  have htw : (natToDec n).takeWhile isDigitCode = natToDec n :=
    List.takeWhile_eq_self_iff.mpr hall
  simp [jsParseInt, htw, natToDec_ne_nil, decVal_natToDec]

theorem jsSplit_not_mem (sep : Nat) (s : List Nat) (h : sep ∉ s) :
    jsSplit sep s = [s] := by
  induction s with
  | nil => rfl
  | cons c cs ih =>
    rw [List.mem_cons] at h
    push_neg at h
    rw [jsSplit, if_neg (fun e => h.1 e.symm), ih h.2]

theorem jsSplit_append_sep (sep : Nat) (u rest : List Nat) (h : sep ∉ u) :
    jsSplit sep (u ++ sep :: rest) = u :: jsSplit sep rest := by
  induction u with
  | nil =>
    simp only [List.nil_append]
    rw [jsSplit, if_pos rfl]
  | cons c cs ih =>
    rw [List.mem_cons] at h
    push_neg at h
    rw [List.cons_append, jsSplit, if_neg (fun e => h.1 e.symm), ih h.2]

theorem natToDec_not_colon (n : Nat) : 58 ∉ natToDec n := by
  intro hmem
  have := natToDec_mem n 58 hmem
  omega

/-- The token payload splits back into its three fields when neither id
contains `':'`. -/
theorem jsSplit_generateAccessToken (t : Nat) (u r : List Nat)
    (hu : 58 ∉ u) (hr : 58 ∉ r) :
    jsSplit 58 (generateAccessToken t u r) = [u, r, natToDec t] := by
  unfold generateAccessToken
  rw [jsSplit_append_sep 58 u _ hu, jsSplit_append_sep 58 r _ hr,
    jsSplit_not_mem 58 (natToDec t) (natToDec_not_colon t)]

/-- Counterexample to claim C3 as stated: for the subjectId `"a:b"`
(code units `[97, 58, 98]`) and resourceId `"c"` (`[99]`), validation of a
freshly generated token fails even at the generation instant, because the
embedded `':'` shifts the `split(':')` fields. -/
theorem C3_token_round_trip_counterexample :
    validateAccessToken 0 (generateAccessToken 0 [97, 58, 98] [99])
      [97, 58, 98] [99] = false := by
  decide

/-- Claim C3 (amended: restricted to subject and resource ids free of the
separator `':'`): the round trip validates exactly while
`now − issuedAt < SESSION_TIMEOUT` (so it is true at generation and at any
time strictly less than 24 h after issuance, and false once 24 h have
passed), and validation against any different colon-free resource id
fails. -/
theorem C3_token_round_trip_amended
    (u r : List Nat) (t : Nat) (hu : 58 ∉ u) (hr : 58 ∉ r) :
    (∀ now : Nat,
      validateAccessToken now (generateAccessToken t u r) u r =
        decide ((now : Int) - (t : Int) < (SESSION_TIMEOUT : Int))) ∧
    (∀ (now : Nat) (r' : List Nat), 58 ∉ r' → r' ≠ r →
      validateAccessToken now (generateAccessToken t u r) u r' = false) := by
  have hsplit := jsSplit_generateAccessToken t u r hu hr
  constructor
  · intro now
    simp [validateAccessToken, hsplit, jsParseInt_natToDec]
  · intro now r' h58 hne
    have hrr : r ≠ r' := fun e => hne e.symm
    simp [validateAccessToken, hsplit, hrr]

/-- Witness for C3 (amended) with `u = "a"`, `r = "b"`, issuance at 0:
valid at time 0, invalid at exactly 24 h, invalid for resource `"c"`. -/
theorem C3_token_round_trip_amended_witness :
    validateAccessToken 0 (generateAccessToken 0 [97] [98]) [97] [98]
        = true ∧
    validateAccessToken 86400000 (generateAccessToken 0 [97] [98]) [97] [98]
        = false ∧
    validateAccessToken 0 (generateAccessToken 0 [97] [98]) [97] [99]
        = false := by
  have h := C3_token_round_trip_amended [97] [98] 0 (by decide) (by decide)
  refine ⟨?_, ?_, ?_⟩
  · rw [h.1 0]; decide
  · rw [h.1 86400000]; decide
  · exact h.2 0 [99] (by decide) (by decide)

/-! ## Session manager (`security.ts` lines 174-247)

The two `localStorage` slots are modelled separately.  A stored value is
either valid JSON of a session record or corrupted text on which
`JSON.parse` throws; the `try/catch` of the getters is modelled with
`Except`, the caught body returning `null` leaving the slot untouched. -/

/-- The user session record written by `setUserSession`. -/
structure UserSessionRec where
  userId : String
  userData : String
  timestamp : Nat
  expires : Nat
deriving Repr, DecidableEq

/-- The admin session record written by `setAdminSession`. -/
structure AdminSessionRec where
  adminId : String
  adminData : String
  timestamp : Nat
  expires : Nat
deriving Repr, DecidableEq

/-- Contents of the `deepbug_session` localStorage key. -/
inductive UserStoredCell where
  | valid (rec : UserSessionRec)
  | corrupt
deriving Repr, DecidableEq

/-- Contents of the `deepbug_admin_session` localStorage key. -/
inductive AdminStoredCell where
  | valid (rec : AdminSessionRec)
  | corrupt
deriving Repr, DecidableEq

/-- `JSON.parse` on the user slot: throws on corrupted text. -/
def jsonParseUser : UserStoredCell → Except Unit UserSessionRec
  | .valid r => .ok r
  | .corrupt => .error ()

/-- `JSON.parse` on the admin slot: throws on corrupted text. -/
def jsonParseAdmin : AdminStoredCell → Except Unit AdminSessionRec
  | .valid r => .ok r
  | .corrupt => .error ()

/-- `SessionManager.setUserSession(userId, userData)`: unconditional
overwrite with `timestamp = now`, `expires = now + SESSION_TIMEOUT`. -/
def setUserSession (now : Nat) (userId userData : String) :
    Option UserStoredCell :=
  some (.valid ⟨userId, userData, now, now + SESSION_TIMEOUT⟩)

/-- `SessionManager.setAdminSession(adminId, adminData)`. -/
def setAdminSession (now : Nat) (adminId adminData : String) :
    Option AdminStoredCell :=
  some (.valid ⟨adminId, adminData, now, now + SESSION_TIMEOUT⟩)

/-- The `try` body of `getUserSession`: absent slot → `null`;
parsed but `Date.now() > expires` → clear the slot, return `null`;
otherwise return the record. `JSON.parse` may throw. -/
def getUserSessionBody (now : Nat) (slot : Option UserStoredCell) :
    Except Unit (Option UserSessionRec × Option UserStoredCell) :=
  match slot with
  | none => .ok (none, slot)
  | some cell => do
      let parsed ← jsonParseUser cell
      if parsed.expires < now then .ok (none, none)
      else .ok (some parsed, slot)

/-- `SessionManager.getUserSession()` from `security.ts` lines 198-213:
the body wrapped in `try { ... } catch { return null }`.  Returns the
result and the slot after the call. -/
def getUserSession (now : Nat) (slot : Option UserStoredCell) :
    Option UserSessionRec × Option UserStoredCell :=
  match getUserSessionBody now slot with
  | .ok r => r
  | .error _ => (none, slot)

/-- The `try` body of `getAdminSession`. -/
def getAdminSessionBody (now : Nat) (slot : Option AdminStoredCell) :
    Except Unit (Option AdminSessionRec × Option AdminStoredCell) :=
  match slot with
  | none => .ok (none, slot)
  | some cell => do
      let parsed ← jsonParseAdmin cell
      if parsed.expires < now then .ok (none, none)
      else .ok (some parsed, slot)

/-- `SessionManager.getAdminSession()` from `security.ts` lines 215-230. -/
def getAdminSession (now : Nat) (slot : Option AdminStoredCell) :
    Option AdminSessionRec × Option AdminStoredCell :=
  match getAdminSessionBody now slot with
  | .ok r => r
  | .error _ => (none, slot)

/-- Claim C5: after `setUserSession`, a `getUserSession` at any time not
past `expires = issuedAt + SESSION_TIMEOUT` returns the stored record (same
subject id and data) and keeps the slot; a read strictly past `expires`
returns nothing and clears the slot, and any read of the cleared slot also
returns nothing. -/
theorem C5_session_set_get_lazy_expiry
    (userId userData : String) (t now : Nat) :
    (now ≤ t + SESSION_TIMEOUT →
      getUserSession now (setUserSession t userId userData) =
        (some ⟨userId, userData, t, t + SESSION_TIMEOUT⟩,
          setUserSession t userId userData)) ∧
    (t + SESSION_TIMEOUT < now →
      getUserSession now (setUserSession t userId userData) =
        (none, none)) ∧
    (∀ now' : Nat,
      getUserSession now' (none : Option UserStoredCell) = (none, none)) := by
  refine ⟨fun hle => ?_, fun hgt => ?_, fun now' => rfl⟩
  · simp [getUserSession, getUserSessionBody, setUserSession, jsonParseUser,
      Bind.bind, Except.bind, Nat.not_lt.mpr hle]
  · simp [getUserSession, getUserSessionBody, setUserSession, jsonParseUser,
      Bind.bind, Except.bind, hgt]

/-- Witness for C5 at `t = 0`, reads at times 5 and `SESSION_TIMEOUT + 1`. -/
theorem C5_session_set_get_lazy_expiry_witness :
    getUserSession 5 (setUserSession 0 "u" "d") =
      (some ⟨"u", "d", 0, SESSION_TIMEOUT⟩, setUserSession 0 "u" "d") ∧
    getUserSession (SESSION_TIMEOUT + 1) (setUserSession 0 "u" "d") =
      (none, none) := by
  constructor
  · have h := (C5_session_set_get_lazy_expiry "u" "d" 0 5).1
      (by simp [SESSION_TIMEOUT])
    simpa using h
  · exact (C5_session_set_get_lazy_expiry "u" "d" 0 (SESSION_TIMEOUT + 1)).2.1
      (by omega)

/-- Claim C10: `getUserSession` and `getAdminSession` never propagate an
error — on an absent slot or one whose stored text `JSON.parse` rejects,
they return `null` (the corrupted slot is left as is, the `catch` performs
no write), even though the un-caught body does throw on corrupted text. -/
theorem C10_session_getters_never_throw (now : Nat)
    (uslot : Option UserStoredCell) (aslot : Option AdminStoredCell)
    (hu : uslot = none ∨ uslot = some .corrupt)
    (ha : aslot = none ∨ aslot = some .corrupt) :
    getUserSession now uslot = (none, uslot) ∧
    getAdminSession now aslot = (none, aslot) ∧
    getUserSessionBody now (some .corrupt) = .error () ∧
    getAdminSessionBody now (some .corrupt) = .error () := by
  refine ⟨?_, ?_, rfl, rfl⟩
  · rcases hu with h | h <;> subst h <;> rfl
  · rcases ha with h | h <;> subst h <;> rfl

/-- Witness for C10 on corrupted slots at time 0. -/
theorem C10_session_getters_never_throw_witness :
    getUserSession 0 (some .corrupt) = (none, some .corrupt) ∧
    getAdminSession 0 (some .corrupt) = (none, some .corrupt) := by
  have h := C10_session_getters_never_throw 0 (some .corrupt)
    (some .corrupt) (Or.inr rfl) (Or.inr rfl)
  exact ⟨h.1, h.2.1⟩

end DeepBug
